import Mathlib

/-!
# Shallow embedding of the video-engine POC

This file embeds, in Lean, the parts of the `video-engine-poc` repository that
the verified claims below speak about:

* `EventEmitter` (`src/engine/events/EventEmitter.ts`) — per-entity
  publish/subscribe bus whose handler collections are JS `Set`s;
* `VideoItem` (`src/engine/VideoItem.ts`) — the Session: lifecycle state
  machine, one-shot manager composition, playback API (`play`, `pause`,
  `setVolume`, `dispose`, …);
* `VideoEngine` (`src/engine/VideoEngine.ts`) — the Registry singleton:
  session map, active item, global volume/mute, external-script loading;
* `VideoPlayerManager` (`src/managers/VideoPlayerManager.ts`) — the Player
  Delegate binding and its adapter-event → session-event mapping.

Numbers that are JS `number`s in the source (volumes, seek positions) are
modelled as rationals; JS `Map`s become insertion-ordered association lists;
JS `Set`s become duplicate-free insertion-ordered lists; promises/async are
made explicit by splitting a suspending function at its `await` points and by
recording invocation counts in the state.
-/

/-- Lifecycle states of a Session (`VideoItemState` enum; values as used
throughout `VideoItem.ts`). -/
inductive VideoItemState
  | idle
  | loading
  | ready
  | playing
  | paused
  | buffering
  | ended
  | error
  deriving DecidableEq, Repr, Fintype

/-- Player backend kind (`PlayerType` union in `VideoItemInitProps.ts`). -/
inductive PlayerType
  | videojs
  | html5
  | shaka
  deriving DecidableEq, Repr

/-! ## EventEmitter (`src/engine/events/EventEmitter.ts`)

`handlers : Map<event, Set<handler>>` is modelled as an association list from
event names to duplicate-free lists of handler ids; a JS `Set` iterates in
insertion order and stores each element once, so `Set.add` appends only a
missing element and `Set.delete` removes it. -/

/-- `EventEmitter.on`: get-or-create the event's `Set`, then `Set.add handler`
(append only if absent). -/
def EventEmitter.on (m : List (String × List Nat)) (event : String) (handler : Nat) :
    List (String × List Nat) :=
  match m with
  | [] => [(event, [handler])]
  | (e, hs) :: rest =>
    if e = event then
      (e, if handler ∈ hs then hs else hs ++ [handler]) :: rest
    else
      (e, hs) :: EventEmitter.on rest event handler

/-- `EventEmitter.off`: `Set.delete handler` on the event's entry (the map
entry itself stays, as in the source). -/
def EventEmitter.off (m : List (String × List Nat)) (event : String) (handler : Nat) :
    List (String × List Nat) :=
  match m with
  | [] => []
  | (e, hs) :: rest =>
    (if e = event then (e, hs.filter (fun h => h ≠ handler)) else (e, hs)) ::
      EventEmitter.off rest event handler

/-- `EventEmitter.emit`: the sequence of handler invocations one `emit` of
`event` performs (each handler in the event's `Set`, in insertion order; a
handler's own failure is caught and does not stop the iteration). -/
def EventEmitter.emit (m : List (String × List Nat)) (event : String) : List Nat :=
  match m.find? (fun p => p.1 = event) with
  | none => []
  | some p => p.2

/-- Well-formedness that every reachable `EventEmitter` state enjoys: each
event's handler collection is a JS `Set`, hence duplicate-free. -/
def EventEmitter.WF (m : List (String × List Nat)) : Prop :=
  ∀ p ∈ m, p.2.Nodup

instance (m : List (String × List Nat)) : Decidable (EventEmitter.WF m) :=
  List.decidableBAll _ m

/-! ### Helper lemmas about the emitter -/

theorem EventEmitter.emit_on_self (m : List (String × List Nat)) (e : String) (h : Nat) :
    EventEmitter.emit (EventEmitter.on m e h) e =
      (EventEmitter.emit m e) ++ (if h ∈ EventEmitter.emit m e then [] else [h]) := by
  induction m with
  | nil => simp [EventEmitter.on, EventEmitter.emit, List.find?]
  | cons p rest ih =>
    obtain ⟨a, hs⟩ := p
    by_cases hae : a = e
    · subst hae
      by_cases hmem : h ∈ hs <;>
        simp [EventEmitter.on, EventEmitter.emit, List.find?, hmem]
    · have : ¬ (decide (a = e) = true) := by simp [hae]
      simp only [EventEmitter.on, if_neg hae]
      simp only [EventEmitter.emit, List.find?, decide_eq_true_eq] at ih ⊢
      simp [hae, ih]

theorem EventEmitter.on_nodup (m : List (String × List Nat)) (e : String) (h : Nat)
    (hwf : EventEmitter.WF m) : EventEmitter.WF (EventEmitter.on m e h) := by
  induction m with
  | nil =>
    intro p hp
    simp [EventEmitter.on] at hp
    simp [hp]
  | cons q rest ih =>
    obtain ⟨a, hs⟩ := q
    have ha : hs.Nodup := hwf ⟨a, hs⟩ (by simp)
    have hrest : EventEmitter.WF rest := fun p hp => hwf p (List.mem_cons_of_mem _ hp)
    by_cases hae : a = e
    · subst hae
      intro p hp
      simp only [EventEmitter.on, if_pos rfl] at hp
      rcases List.mem_cons.mp hp with hp | hp
      · subst hp
        by_cases hmem : h ∈ hs
        · simpa [hmem] using ha
        · simpa [hmem] using List.Nodup.append ha (List.nodup_singleton h)
            (by simpa using hmem)
      · exact hrest p hp
    · intro p hp
      simp only [EventEmitter.on, if_neg hae] at hp
      rcases List.mem_cons.mp hp with hp | hp
      · subst hp; exact ha
      · exact ih hrest p hp

theorem EventEmitter.emit_off (m : List (String × List Nat)) (e : String) (h : Nat) :
    EventEmitter.emit (EventEmitter.off m e h) e =
      (EventEmitter.emit m e).filter (fun x => x ≠ h) := by
  induction m with
  | nil => simp [EventEmitter.off, EventEmitter.emit, List.find?]
  | cons p rest ih =>
    obtain ⟨a, hs⟩ := p
    by_cases hae : a = e
    · subst hae
      simp [EventEmitter.off, EventEmitter.emit, List.find?]
    · simp only [EventEmitter.off, if_neg hae]
      simp only [EventEmitter.emit, List.find?, decide_eq_true_eq] at ih ⊢
      simp [hae, ih]

theorem EventEmitter.on_on (m : List (String × List Nat)) (e : String) (h : Nat) :
    EventEmitter.on (EventEmitter.on m e h) e h = EventEmitter.on m e h := by
  induction m with
  | nil => simp [EventEmitter.on]
  | cons p rest ih =>
    obtain ⟨a, hs⟩ := p
    by_cases hae : a = e
    · subst hae
      by_cases hmem : h ∈ hs <;> simp [EventEmitter.on, hmem]
    · simp [EventEmitter.on, hae, ih]

theorem EventEmitter.emit_nodup (m : List (String × List Nat)) (e : String)
    (hwf : EventEmitter.WF m) : (EventEmitter.emit m e).Nodup := by
  unfold EventEmitter.emit
  cases hf : m.find? (fun p => p.1 = e) with
  | none => simp
  | some p => exact hwf p (List.mem_of_find?_eq_some hf)

/-- C10: event-bus subscription is idempotent per (event, handler) pair —
subscribing the same handler to the same event twice equals subscribing it
once, each publish then invokes the handler exactly once, and one unsubscribe
removes it entirely (handlers live in a JS `Set`). -/
theorem eventEmitter_subscription_idempotent
    (m : List (String × List Nat)) (e : String) (h : Nat)
    (hwf : EventEmitter.WF m) :
    EventEmitter.on (EventEmitter.on m e h) e h = EventEmitter.on m e h ∧
    (EventEmitter.emit (EventEmitter.on m e h) e).count h = 1 ∧
    h ∉ EventEmitter.emit (EventEmitter.off (EventEmitter.on m e h) e h) e := by
  refine ⟨EventEmitter.on_on m e h, ?_, ?_⟩
  · rw [EventEmitter.emit_on_self]
    by_cases hmem : h ∈ EventEmitter.emit m e
    · simpa [hmem] using
        List.count_eq_one_of_mem (EventEmitter.emit_nodup m e hwf) hmem
    · simp [hmem, List.count_eq_zero_of_not_mem hmem]
  · rw [EventEmitter.emit_off]
    simp

/-- Closed instance of `eventEmitter_subscription_idempotent` at a concrete
emitter state. -/
theorem eventEmitter_subscription_idempotent_witness :
    EventEmitter.WF [("PLAY", [5])] ∧
    (EventEmitter.on (EventEmitter.on [("PLAY", [5])] "PLAY" 7) "PLAY" 7 =
        EventEmitter.on [("PLAY", [5])] "PLAY" 7 ∧
      (EventEmitter.emit (EventEmitter.on [("PLAY", [5])] "PLAY" 7) "PLAY").count 7 = 1 ∧
      7 ∉ EventEmitter.emit
          (EventEmitter.off (EventEmitter.on [("PLAY", [5])] "PLAY" 7) "PLAY" 7) "PLAY") :=
  ⟨by decide, eventEmitter_subscription_idempotent [("PLAY", [5])] "PLAY" 7 (by decide)⟩

/-! ## VideoItem configuration and manager composition (`src/engine/VideoItem.ts`)

`VideoItemInitProps` / `VideoItemConfig` keep the fields the engine logic
reads: volume/mute, autoplay, and the per-feature gates. The optional string
fields `dataEndpoint` / `gemiusId` gate managers by JS truthiness (absent or
empty string is falsy). -/

/-- Caller-supplied init props (`VideoItemInitProps.ts`), restricted to the
fields any embedded operation reads. -/
structure VideoItemInitProps where
  id : String
  url : Option String
  volume : Option ℚ
  muted : Option Bool
  autoplay : Bool
  dataEndpoint : Option String
  gemiusId : Option String
  adsEnabled : Bool
  endscreenEnabled : Bool
  recommendationsEnabled : Bool
  chromecastEnabled : Bool
  airplayEnabled : Bool
  floatingEnabled : Bool
  deriving DecidableEq, Repr

/-- The engine-context snapshot handed to a `VideoItem` at construction
(`VideoEngineContext.ts`). -/
structure VideoEngineContext where
  globalVolume : ℚ
  globalMuted : Bool
  userContext : List (String × String)
  playerType : PlayerType
  deriving DecidableEq, Repr

/-- Resolved configuration (`VideoItemConfig.ts`): init props with
`playerType` taken from the context and `volume`/`muted` defaulted from the
global state (`initProps.volume ?? engineContext.globalVolume`, likewise for
`muted`) — the constructor's merge in `VideoItem.ts`. -/
structure VideoItemConfig where
  id : String
  url : Option String
  playerType : PlayerType
  volume : ℚ
  muted : Bool
  autoplay : Bool
  dataEndpoint : Option String
  gemiusId : Option String
  adsEnabled : Bool
  endscreenEnabled : Bool
  recommendationsEnabled : Bool
  chromecastEnabled : Bool
  airplayEnabled : Bool
  floatingEnabled : Bool
  deriving DecidableEq, Repr

/-- The `VideoItem` constructor's configuration resolution. -/
def resolveConfig (p : VideoItemInitProps) (ctx : VideoEngineContext) : VideoItemConfig :=
  { id := p.id
    url := p.url
    playerType := ctx.playerType
    volume := p.volume.getD ctx.globalVolume
    muted := p.muted.getD ctx.globalMuted
    autoplay := p.autoplay
    dataEndpoint := p.dataEndpoint
    gemiusId := p.gemiusId
    adsEnabled := p.adsEnabled
    endscreenEnabled := p.endscreenEnabled
    recommendationsEnabled := p.recommendationsEnabled
    chromecastEnabled := p.chromecastEnabled
    airplayEnabled := p.airplayEnabled
    floatingEnabled := p.floatingEnabled }

/-- JS truthiness of an optional string config field (`undefined` and `""`
are falsy). -/
def truthy : Option String → Bool
  | none => false
  | some s => s ≠ ""

/-- Which manager fields of a `VideoItem` are non-null. One `Bool` per field
(`videoDataManager`, …, `floatingManager`); `true` = the field holds a
manager instance. -/
structure ManagerSet where
  videoDataManager : Bool
  gemiusDataManager : Bool
  advertisementManager : Bool
  endScreenManager : Bool
  recommendationsManager : Bool
  chromecastManager : Bool
  airplayManager : Bool
  floatingManager : Bool
  deriving DecidableEq, Repr

/-- All manager fields null — the state right after construction. -/
def noManagers : ManagerSet :=
  { videoDataManager := false
    gemiusDataManager := false
    advertisementManager := false
    endScreenManager := false
    recommendationsManager := false
    chromecastManager := false
    airplayManager := false
    floatingManager := false }

/-- The managers `initializeManagers` creates, one per truthy/true config
gate (`VideoItem.initializeManagers`, lines 165–232). -/
def managersFromConfig (c : VideoItemConfig) : ManagerSet :=
  { videoDataManager := truthy c.dataEndpoint
    gemiusDataManager := truthy c.gemiusId
    advertisementManager := c.adsEnabled
    endScreenManager := c.endscreenEnabled
    recommendationsManager := c.recommendationsEnabled
    chromecastManager := c.chromecastEnabled
    airplayManager := c.airplayEnabled
    floatingManager := c.floatingEnabled }

/-- Session-level emitted events carrying their payloads, as `emit` calls in
`VideoItem.ts` produce them (`VideoItemEvents` map). -/
inductive ItemEvent
  | stateChanged (s : VideoItemState)
  | volumeChanged (v : ℚ)
  | muteChanged (m : Bool)
  | errorEvent
  deriving DecidableEq, Repr

/-- The mutable fields of one `VideoItem` instance. `playerManager = true`
models a non-null `playerManager` field; `playerMuted`/`playerVolume`/
`playerPosition` mirror the adapter-side settings the manager forwards to,
and `handlers` is the item's own `EventEmitter` state. -/
structure VideoItemModel where
  id : String
  config : VideoItemConfig
  engineContext : VideoEngineContext
  state : VideoItemState
  initialized : Bool
  playerManager : Bool
  playerMuted : Bool
  playerVolume : ℚ
  playerPosition : ℚ
  managers : ManagerSet
  managersInitialized : Bool
  handlers : List (String × List Nat)
  deriving DecidableEq, Repr

/-- `new VideoItem(initProps, engineContext)`: resolve the config, copy the
context; state starts `idle`, nothing initialized, every manager field null. -/
def mkVideoItem (p : VideoItemInitProps) (ctx : VideoEngineContext) : VideoItemModel :=
  { id := p.id
    config := resolveConfig p ctx
    engineContext := ctx
    state := VideoItemState.idle
    initialized := false
    playerManager := false
    playerMuted := false
    playerVolume := 1
    playerPosition := 0
    managers := noManagers
    managersInitialized := false
    handlers := [] }

/-! ## C1 — one-shot manager composition on first `ready`

`VideoItem.handleStateChanged` receives every `STATE_CHANGED` payload; on
`ready` with `managersInitialized` still false it runs `initializeManagers`
(and `handleAutoplay`, which only calls `play` and touches no manager field).
`initializeManagers` re-checks the flag, creates one manager per enabled
config gate and then sets the flag. `composeRuns` counts executions of the
body of `initializeManagers` past its guard. -/

/-- Manager-composition state of a `VideoItem`, with an instrumentation
counter for how many times composition actually ran. -/
structure ItemComposition where
  config : VideoItemConfig
  managers : ManagerSet
  managersInitialized : Bool
  composeRuns : Nat
  deriving DecidableEq, Repr

/-- `VideoItem.initializeManagers` (lines 165–232): early-return when the
one-shot flag is set, otherwise create each configured manager and set the
flag. -/
def initializeManagers (it : ItemComposition) : ItemComposition :=
  if it.managersInitialized then it
  else
    { it with
        managers := managersFromConfig it.config
        managersInitialized := true
        composeRuns := it.composeRuns + 1 }

/-- `VideoItem.handleStateChanged` (lines 137–142): compose managers only on
a `ready` payload while the one-shot flag is unset. (`handleAutoplay` also
runs there; it calls `play` and never assigns a manager field.) -/
def handleStateChanged (it : ItemComposition) (payload : VideoItemState) : ItemComposition :=
  if payload = VideoItemState.ready ∧ it.managersInitialized = false then
    initializeManagers it
  else it

/-- Deliver a whole sequence of `STATE_CHANGED` payloads. -/
def runStateChanges (it : ItemComposition) (trace : List VideoItemState) : ItemComposition :=
  trace.foldl handleStateChanged it

/-- Composition state of a freshly constructed `VideoItem`. -/
def initialComposition (c : VideoItemConfig) : ItemComposition :=
  { config := c, managers := noManagers, managersInitialized := false, composeRuns := 0 }

theorem initializeManagers_fixed (it : ItemComposition)
    (h : it.managersInitialized = true) : initializeManagers it = it := by
  simp [initializeManagers, h]

theorem runStateChanges_closed (trace : List VideoItemState) (it : ItemComposition) :
    runStateChanges it trace =
      if it.managersInitialized = false ∧ VideoItemState.ready ∈ trace then
        initializeManagers it
      else it := by
  induction trace generalizing it with
  | nil => simp [runStateChanges]
  | cons a tl ih =>
    have step : runStateChanges it (a :: tl) = runStateChanges (handleStateChanged it a) tl := by
      simp [runStateChanges]
    rw [step, ih]
    by_cases hinit : it.managersInitialized = false
    · by_cases ha : a = VideoItemState.ready
      · subst ha
        have hh : handleStateChanged it VideoItemState.ready = initializeManagers it := by
          simp [handleStateChanged, hinit]
        rw [hh]
        have hflag : (initializeManagers it).managersInitialized = true := by
          simp [initializeManagers, hinit]
        simp [hflag, hinit]
      · have hh : handleStateChanged it a = it := by
          simp [handleStateChanged, ha]
        rw [hh]
        have ha' : ¬ VideoItemState.ready = a := fun hcontra => ha hcontra.symm
        by_cases htl : VideoItemState.ready ∈ tl
        · simp [hinit, htl, List.mem_cons, ha']
        · simp [hinit, htl, List.mem_cons, ha']
    · have hh : handleStateChanged it a = it := by
        simp [handleStateChanged, hinit]
      rw [hh]
      simp [hinit]

/-- C1: Feature Units (managers) are composed exactly once per Session and
only after the state first reaches `ready`: over any sequence of
`STATE_CHANGED` deliveries from a fresh `VideoItem`, the composition body
runs at most once (exactly once iff some `ready` payload occurred, however
many times `ready` recurs), and every manager field stays null until then. -/
theorem managers_composed_once_after_ready (c : VideoItemConfig)
    (trace : List VideoItemState) :
    (runStateChanges (initialComposition c) trace).composeRuns ≤ 1 ∧
    (runStateChanges (initialComposition c) trace).composeRuns =
      (if VideoItemState.ready ∈ trace then 1 else 0) ∧
    (runStateChanges (initialComposition c) trace).managers =
      (if VideoItemState.ready ∈ trace then managersFromConfig c else noManagers) ∧
    (runStateChanges (initialComposition c) trace).managersInitialized =
      decide (VideoItemState.ready ∈ trace) := by
  rw [runStateChanges_closed]
  by_cases hmem : VideoItemState.ready ∈ trace
  · simp [initialComposition, initializeManagers, hmem]
  · simp [initialComposition, hmem]

/-! ## VideoItem playback operations -/

/-- `Math.max(0, Math.min(1, volume))` — the clamp used by
`VideoItem.setVolume` and `VideoEngine.setVolume`. -/
def clampVolume (v : ℚ) : ℚ := max 0 (min 1 v)

/-- `VideoItem.setVolume` (lines 407–412): clamp, store into the resolved
config, forward to the player manager when one is bound, emit
`VOLUME_CHANGED` with the clamped value. -/
def VideoItemModel.setVolume (it : VideoItemModel) (v : ℚ) :
    VideoItemModel × List ItemEvent :=
  let c := clampVolume v
  let it1 := { it with config := { it.config with volume := c } }
  let it2 := if it1.playerManager then { it1 with playerVolume := c } else it1
  (it2, [ItemEvent.volumeChanged c])

/-- `VideoItem.setMuted` (lines 417–421): store, forward when a player
manager is bound, emit `MUTE_CHANGED`. -/
def VideoItemModel.setMuted (it : VideoItemModel) (m : Bool) :
    VideoItemModel × List ItemEvent :=
  let it1 := { it with config := { it.config with muted := m } }
  let it2 := if it1.playerManager then { it1 with playerMuted := m } else it1
  (it2, [ItemEvent.muteChanged m])

/-- `VideoItem.pause` (lines 382–392): return at once when no player manager
is bound; otherwise set state to `paused` immediately when `playing` (with the
`STATE_CHANGED` emission of `setState`) and delegate `pause()` to the
manager. -/
def VideoItemModel.pause (it : VideoItemModel) : VideoItemModel × List ItemEvent :=
  if it.playerManager = false then (it, [])
  else if it.state = VideoItemState.playing then
    ({ it with state := VideoItemState.paused },
      [ItemEvent.stateChanged VideoItemState.paused])
  else (it, [])

/-- `VideoItem.seekTo` (lines 397–402): no-op without a player manager,
otherwise delegate the seek. -/
def VideoItemModel.seekTo (it : VideoItemModel) (seconds : ℚ) :
    VideoItemModel × List ItemEvent :=
  if it.playerManager = false then (it, [])
  else ({ it with playerPosition := seconds }, [])

/-- `VideoItem.dispose` (lines 447–493): dispose and null the player manager
and every manager field, clear all event subscribers, force state to `idle`,
reset `initialized` (the `managersInitialized` flag is not reset). The final
`setState(IDLE)` emits to an already-cleared handler set. -/
def VideoItemModel.dispose (it : VideoItemModel) : VideoItemModel :=
  { it with
      playerManager := false
      managers := noManagers
      handlers := []
      state := VideoItemState.idle
      initialized := false }

/-! ## C3 — `play` rejection and forced-mute autoplay retry

`VideoItem.play` (lines 330–377) is split around its delegate calls: the
delegate's outcomes are an input (`DelegateBehavior`), and the run records
how often `playerManager.play()` was invoked. -/

/-- Outcome of one `playerManager.play()` call: fulfilled, or rejected with
an `Error` whose `name` distinguishes `NotAllowedError`. -/
inductive PlayResult
  | ok
  | err (name : String)
  deriving DecidableEq, Repr

/-- Outcomes the Player Delegate would produce: for the first `play()` call
and for a retry performed after mute was forced on. -/
structure DelegateBehavior where
  firstPlay : PlayResult
  retryPlay : PlayResult
  deriving DecidableEq, Repr

/-- Result of one `VideoItem.play()` call: the settled promise, the item
afterwards, and how many times `playerManager.play()` ran. -/
structure PlayRun where
  result : PlayResult
  item : VideoItemModel
  delegatePlayCalls : Nat
  deriving DecidableEq, Repr

/-- `VideoItem.play` (lines 330–377): throw when no player manager is bound;
throw without touching the delegate when state is `error` or `idle`; on a
`NotAllowedError` rejection while the delegate is unmuted, force mute on and
retry once, rethrowing the original error if the retry also rejects. -/
def VideoItemModel.play (it : VideoItemModel) (beh : DelegateBehavior) : PlayRun :=
  if it.playerManager = false then
    { result := PlayResult.err "PlayerNotInitialized", item := it, delegatePlayCalls := 0 }
  else if it.state = VideoItemState.error ∨ it.state = VideoItemState.idle then
    { result := PlayResult.err "CannotPlayInState", item := it, delegatePlayCalls := 0 }
  else
    match beh.firstPlay with
    | PlayResult.ok => { result := PlayResult.ok, item := it, delegatePlayCalls := 1 }
    | PlayResult.err n =>
      if n = "NotAllowedError" ∧ it.playerMuted = false then
        let it2 := { it with playerMuted := true }
        match beh.retryPlay with
        | PlayResult.ok => { result := PlayResult.ok, item := it2, delegatePlayCalls := 2 }
        | PlayResult.err _ =>
          { result := PlayResult.err n, item := it2, delegatePlayCalls := 2 }
      else { result := PlayResult.err n, item := it, delegatePlayCalls := 1 }

/-- C3: `play()` rejects in `idle`/`error` without ever invoking the
delegate's play, and a `NotAllowedError` rejection while unmuted forces mute
on and retries exactly once, rethrowing the original error when the muted
retry also fails. -/
theorem play_rejects_and_retries_muted :
    (∀ (it : VideoItemModel) (beh : DelegateBehavior),
      it.state = VideoItemState.idle ∨ it.state = VideoItemState.error →
        (it.play beh).result ≠ PlayResult.ok ∧ (it.play beh).delegatePlayCalls = 0 ∧
        (it.play beh).item = it) ∧
    (∀ (it : VideoItemModel) (beh : DelegateBehavior),
      it.playerManager = true →
      it.state ≠ VideoItemState.idle → it.state ≠ VideoItemState.error →
      it.playerMuted = false →
      beh.firstPlay = PlayResult.err "NotAllowedError" →
        (it.play beh).delegatePlayCalls = 2 ∧
        (it.play beh).item.playerMuted = true ∧
        (it.play beh).result =
          (if beh.retryPlay = PlayResult.ok then PlayResult.ok
           else PlayResult.err "NotAllowedError")) := by
  constructor
  · intro it beh hstate
    by_cases hpm : it.playerManager = false
    · rcases hstate with h | h <;> simp [VideoItemModel.play, hpm]
    · have hor : it.state = VideoItemState.error ∨ it.state = VideoItemState.idle :=
        hstate.symm
      simp [VideoItemModel.play, hpm, hor]
  · intro it beh hpm hidle herr hmuted hfirst
    have hpm' : ¬ it.playerManager = false := by simp [hpm]
    have hor : ¬ (it.state = VideoItemState.error ∨ it.state = VideoItemState.idle) := by
      rintro (h | h)
      · exact herr h
      · exact hidle h
    cases hretry : beh.retryPlay with
    | ok => simp [VideoItemModel.play, hpm', hor, hfirst, hmuted, hretry]
    | err n => simp [VideoItemModel.play, hpm', hor, hfirst, hmuted, hretry]

/-! ### Concrete sample data (used by closed witness instances) -/

/-- A concrete set of init props. -/
def sampleProps : VideoItemInitProps :=
  { id := "item-a"
    url := some "https://cdn.example/v.m3u8"
    volume := none
    muted := none
    autoplay := false
    dataEndpoint := some "https://data.example/collect"
    gemiusId := none
    adsEnabled := true
    endscreenEnabled := false
    recommendationsEnabled := false
    chromecastEnabled := false
    airplayEnabled := false
    floatingEnabled := false }

/-- A concrete engine-context snapshot. -/
def sampleCtx : VideoEngineContext :=
  { globalVolume := 1
    globalMuted := false
    userContext := []
    playerType := PlayerType.videojs }

/-- A freshly constructed item (state `idle`, no player manager). -/
def sampleItem : VideoItemModel := mkVideoItem sampleProps sampleCtx

/-- The same item once `init` has succeeded: player manager bound, state
`ready`, delegate unmuted. -/
def readyItem : VideoItemModel :=
  { sampleItem with
      state := VideoItemState.ready
      playerManager := true
      initialized := true }

/-- A delegate whose `play()` always fulfills. -/
def behaviorOk : DelegateBehavior :=
  { firstPlay := PlayResult.ok, retryPlay := PlayResult.ok }

/-- A delegate rejecting with `NotAllowedError` and failing the muted retry
too. -/
def behaviorBlocked : DelegateBehavior :=
  { firstPlay := PlayResult.err "NotAllowedError"
    retryPlay := PlayResult.err "AbortError" }

/-- Closed instance of `play_rejects_and_retries_muted`: an `idle` item
rejects with zero delegate calls, and a `ready` unmuted item facing a
persistent `NotAllowedError` retries muted once and rethrows the original
error. -/
theorem play_rejects_and_retries_muted_witness :
    (sampleItem.state = VideoItemState.idle ∨ sampleItem.state = VideoItemState.error) ∧
    ((sampleItem.play behaviorOk).result ≠ PlayResult.ok ∧
      (sampleItem.play behaviorOk).delegatePlayCalls = 0 ∧
      (sampleItem.play behaviorOk).item = sampleItem) ∧
    (readyItem.playerManager = true ∧ readyItem.state ≠ VideoItemState.idle ∧
      readyItem.state ≠ VideoItemState.error ∧ readyItem.playerMuted = false ∧
      behaviorBlocked.firstPlay = PlayResult.err "NotAllowedError") ∧
    ((readyItem.play behaviorBlocked).delegatePlayCalls = 2 ∧
      (readyItem.play behaviorBlocked).item.playerMuted = true ∧
      (readyItem.play behaviorBlocked).result =
        (if behaviorBlocked.retryPlay = PlayResult.ok then PlayResult.ok
         else PlayResult.err "NotAllowedError")) :=
  ⟨Or.inl (by decide),
    play_rejects_and_retries_muted.1 sampleItem behaviorOk (Or.inl (by decide)),
    ⟨by decide, by decide, by decide, by decide, by decide⟩,
    play_rejects_and_retries_muted.2 readyItem behaviorBlocked (by decide) (by decide)
      (by decide) (by decide) (by decide)⟩

/-! ## C4 / C6 — Player Delegate event mapping and the state listeners

`VideoPlayerManager.setupEventMapping` (lines 67–119) translates raw adapter
events into session-level `emit` calls; `VideoItem.setupStateEventListeners`
(lines 237–279) subscribes state-updating handlers to those session events.
Processing one adapter event is: for each mapped session event in order,
emit it (recording it) and run the state listener, which may nest a
`STATE_CHANGED` emission through `setState`. -/

/-- Raw events of the Player Delegate's adapter (`PlayerAdapterEvents`). -/
inductive AdapterEvent
  | play
  | pause
  | ended
  | error
  | timeupdate
  | waiting
  | canplay
  | playing
  | volumechange
  deriving DecidableEq, Repr, Fintype

/-- Session-level event names as the mapping emits them (payloads dropped
except the `STATE_CHANGED` state, which the listeners inspect). -/
inductive SessionEventName
  | PLAY
  | PAUSE
  | ENDED
  | ERROR
  | TIME_UPDATE
  | BUFFER_START
  | BUFFER_END
  | STATE_CHANGED (s : VideoItemState)
  | VOLUME_CHANGED
  | MUTE_CHANGED
  deriving DecidableEq, Repr

/-- `VideoPlayerManager.setupEventMapping`: the `videoItem.emit` calls each
raw adapter event performs, in order. The raw `play` event deliberately emits
nothing; `playing` emits `PLAY` then `BUFFER_END`. -/
def mapAdapterEvent : AdapterEvent → List SessionEventName
  | AdapterEvent.play => []
  | AdapterEvent.pause => [SessionEventName.PAUSE]
  | AdapterEvent.ended => [SessionEventName.ENDED]
  | AdapterEvent.error => [SessionEventName.ERROR]
  | AdapterEvent.timeupdate => [SessionEventName.TIME_UPDATE]
  | AdapterEvent.waiting => [SessionEventName.BUFFER_START]
  | AdapterEvent.canplay => [SessionEventName.BUFFER_END]
  | AdapterEvent.playing => [SessionEventName.PLAY, SessionEventName.BUFFER_END]
  | AdapterEvent.volumechange =>
      [SessionEventName.VOLUME_CHANGED, SessionEventName.MUTE_CHANGED]

/-- `VideoItem.setupStateEventListeners`: reaction of the state listeners to
one session event — the new `state` and the `STATE_CHANGED` emissions that
`setState` nests (none when the target equals the current state).
`playerPaused` is what `playerManager.isPaused()` would answer at
`BUFFER_END` time. -/
def reactToSessionEvent (playerPaused : Bool) (st : VideoItemState) :
    SessionEventName → VideoItemState × List SessionEventName
  | SessionEventName.PLAY =>
    if st ≠ VideoItemState.playing then
      (VideoItemState.playing, [SessionEventName.STATE_CHANGED VideoItemState.playing])
    else (st, [])
  | SessionEventName.PAUSE =>
    if st ≠ VideoItemState.paused then
      (VideoItemState.paused, [SessionEventName.STATE_CHANGED VideoItemState.paused])
    else (st, [])
  | SessionEventName.ENDED =>
    if st ≠ VideoItemState.ended then
      (VideoItemState.ended, [SessionEventName.STATE_CHANGED VideoItemState.ended])
    else (st, [])
  | SessionEventName.BUFFER_START =>
    if st = VideoItemState.playing then
      (VideoItemState.buffering, [SessionEventName.STATE_CHANGED VideoItemState.buffering])
    else (st, [])
  | SessionEventName.BUFFER_END =>
    if st = VideoItemState.buffering then
      if playerPaused then
        (VideoItemState.paused, [SessionEventName.STATE_CHANGED VideoItemState.paused])
      else
        (VideoItemState.playing, [SessionEventName.STATE_CHANGED VideoItemState.playing])
    else (st, [])
  | _ => (st, [])

/-- Process one raw adapter event through the mapping and the listeners,
returning the state afterwards and every session-level emission (each mapped
event followed by the `STATE_CHANGED` its handler nested). -/
def processAdapterEvent (playerPaused : Bool) (st : VideoItemState) (e : AdapterEvent) :
    VideoItemState × List SessionEventName :=
  (mapAdapterEvent e).foldl
    (fun acc ev =>
      let r := reactToSessionEvent playerPaused acc.1 ev
      (r.1, acc.2 ++ ev :: r.2))
    (st, [])

/-- Process a sequence of raw adapter events. -/
def processAdapterTrace (playerPaused : Bool) (st : VideoItemState)
    (es : List AdapterEvent) : VideoItemState × List SessionEventName :=
  es.foldl
    (fun acc e =>
      let r := processAdapterEvent playerPaused acc.1 e
      (r.1, acc.2 ++ r.2))
    (st, [])

/-- C6: the raw backend `play` signal emits no session event at all (in
particular no `PLAY`) and never changes the state; `PLAY` is emitted exactly
on the backend's `playing` signal, which also emits `BUFFER_END` and which
moves `ready`/`paused` to `playing`. -/
theorem raw_play_signal_never_emits_PLAY :
    ∀ (playerPaused : Bool) (st : VideoItemState),
      processAdapterEvent playerPaused st AdapterEvent.play = (st, []) ∧
      (∀ e : AdapterEvent,
        SessionEventName.PLAY ∈ (processAdapterEvent playerPaused st e).2 ↔
          e = AdapterEvent.playing) ∧
      (processAdapterEvent playerPaused st AdapterEvent.playing).2.head? =
        some SessionEventName.PLAY ∧
      SessionEventName.BUFFER_END ∈
        (processAdapterEvent playerPaused st AdapterEvent.playing).2 ∧
      (processAdapterEvent playerPaused VideoItemState.ready AdapterEvent.playing).1 =
        VideoItemState.playing ∧
      (processAdapterEvent playerPaused VideoItemState.paused AdapterEvent.playing).1 =
        VideoItemState.playing := by
  decide

/-- C4 (counterexample): two backend `ended` signals from the `playing` state
produce TWO session-level `ENDED` emissions, not one — the mapping re-emits
`ENDED` on every raw `ended` signal; only the state transition is guarded. -/
theorem ended_event_reemitted_on_second_signal :
    (processAdapterTrace false VideoItemState.playing
        [AdapterEvent.ended, AdapterEvent.ended]).2.count SessionEventName.ENDED = 2 ∧
    ¬ ((processAdapterTrace false VideoItemState.playing
        [AdapterEvent.ended, AdapterEvent.ended]).2.count SessionEventName.ENDED = 1) := by
  decide

/-- C4 (amended): end-of-stream *state* processing is idempotent — an `ended`
signal always lands in the `ended` state, a recurring signal keeps the state
`ended` and performs no further state transition (exactly one
`STATE_CHANGED{ended}` in total when the run did not start in `ended`) — but
the `ENDED` event itself is re-emitted once per backend signal. -/
theorem ended_state_processing_idempotent :
    ∀ (playerPaused : Bool) (st : VideoItemState),
      (processAdapterEvent playerPaused st AdapterEvent.ended).1 = VideoItemState.ended ∧
      processAdapterEvent playerPaused VideoItemState.ended AdapterEvent.ended =
        (VideoItemState.ended, [SessionEventName.ENDED]) ∧
      (processAdapterTrace playerPaused st
          [AdapterEvent.ended, AdapterEvent.ended]).1 = VideoItemState.ended ∧
      (processAdapterTrace playerPaused st
          [AdapterEvent.ended, AdapterEvent.ended]).2.count
          (SessionEventName.STATE_CHANGED VideoItemState.ended) =
        (if st = VideoItemState.ended then 0 else 1) ∧
      (processAdapterTrace playerPaused st
          [AdapterEvent.ended, AdapterEvent.ended]).2.count SessionEventName.ENDED = 2 := by
  decide

/-! ## VideoEngine (`src/engine/VideoEngine.ts`) -/

/-- External script names (`ScriptName` union). -/
inductive ScriptName
  | ima
  | chromecast
  | gemius
  deriving DecidableEq, Repr

/-- Registry-level events (`VideoEngineEvents`). -/
inductive EngineEvent
  | videoItemCreated (id : String)
  | videoItemDisposed (id : String)
  | activeVideoItemChanged (id : Option String)
  | volumeChanged (v : ℚ)
  | muteChanged (m : Bool)
  deriving DecidableEq, Repr

/-- The `VideoEngine` singleton's state. `items` is the JS `Map` in insertion
order (`activeItem` is kept by id: ids are unique in the map, so identity of
a stored item and id equality coincide). `loadedScripts` is the `Set` of
loaded script names, `scriptPromises` maps an in-flight script name to the id
of its pending promise, `nextPromiseId` supplies fresh promise identities,
and `loaderCalls` records every `loadScript` invocation. -/
structure EngineState where
  items : List (String × VideoItemModel)
  activeItem : Option String
  globalVolume : ℚ
  globalMuted : Bool
  userContext : List (String × String)
  playerType : PlayerType
  loadedScripts : List ScriptName
  scriptPromises : List (ScriptName × Nat)
  nextPromiseId : Nat
  loaderCalls : List ScriptName
  deriving DecidableEq, Repr

/-- A freshly constructed engine (`new VideoEngine()` defaults). -/
def initialEngine : EngineState :=
  { items := []
    activeItem := none
    globalVolume := 1
    globalMuted := false
    userContext := []
    playerType := PlayerType.videojs
    loadedScripts := []
    scriptPromises := []
    nextPromiseId := 0
    loaderCalls := [] }

/-- `VideoEngine.getVideoItem` / `items.get(id)`. -/
def EngineState.findItem (s : EngineState) (id : String) : Option VideoItemModel :=
  (s.items.find? (fun p => p.1 = id)).map (fun p => p.2)

/-- `VideoEngine.setActiveItem` (lines 191–198): no-op when unchanged,
otherwise store and emit `ACTIVE_VIDEO_ITEM_CHANGED`. -/
def EngineState.setActiveItem (s : EngineState) (id : Option String) :
    EngineState × List EngineEvent :=
  if s.activeItem = id then (s, [])
  else ({ s with activeItem := id }, [EngineEvent.activeVideoItemChanged id])

/-- How `createVideoItem` settles. -/
inductive CreateOutcome
  | created (id : String)
  | duplicateIdError
  deriving DecidableEq, Repr

/-- `VideoEngine.createVideoItem` (lines 68–103): throw on a duplicate id
before any mutation; otherwise snapshot the context, construct and insert the
item, initialize it (the item-level `init`, modelled separately — it mutates
only the item), emit `VIDEO_ITEM_CREATED`, and mark the item active when no
item was. The returned triple is (settled outcome, engine state at return,
engine events emitted). -/
def EngineState.createVideoItem (s : EngineState) (input : VideoItemInitProps) :
    CreateOutcome × EngineState × List EngineEvent :=
  if (s.items.map Prod.fst).contains input.id then
    (CreateOutcome.duplicateIdError, s, [])
  else
    let ctx : VideoEngineContext :=
      { globalVolume := s.globalVolume
        globalMuted := s.globalMuted
        userContext := s.userContext
        playerType := s.playerType }
    let item := mkVideoItem input ctx
    let s1 := { s with items := s.items ++ [(input.id, item)] }
    let act := s1.setActiveItem (if s1.activeItem = none then some input.id else s1.activeItem)
    (CreateOutcome.created input.id, act.1,
      EngineEvent.videoItemCreated input.id :: act.2)

/-- C2: creating a second item under an id the Registry already holds throws,
and the throw happens before any side effect: the whole engine state
(session map, active item, every global setting) is returned exactly as it
was and no engine event is emitted. -/
theorem duplicate_id_creation_fails_without_mutation
    (s : EngineState) (input : VideoItemInitProps)
    (hdup : (s.items.map Prod.fst).contains input.id = true) :
    (s.createVideoItem input).1 = CreateOutcome.duplicateIdError ∧
    (s.createVideoItem input).2.1 = s ∧
    (s.createVideoItem input).2.2 = [] ∧
    (s.createVideoItem input).2.1.items.length = s.items.length := by
  unfold EngineState.createVideoItem
  rw [if_pos hdup]
  exact ⟨rfl, rfl, rfl, rfl⟩

/-- Closed instance of `duplicate_id_creation_fails_without_mutation` at an
engine already holding `sampleProps.id`. -/
theorem duplicate_id_creation_fails_without_mutation_witness :
    (((initialEngine.createVideoItem sampleProps).2.1.items.map
        Prod.fst).contains sampleProps.id = true) ∧
    (((initialEngine.createVideoItem sampleProps).2.1.createVideoItem sampleProps).1 =
        CreateOutcome.duplicateIdError ∧
      ((initialEngine.createVideoItem sampleProps).2.1.createVideoItem sampleProps).2.1 =
        (initialEngine.createVideoItem sampleProps).2.1 ∧
      ((initialEngine.createVideoItem sampleProps).2.1.createVideoItem sampleProps).2.2 = [] ∧
      ((initialEngine.createVideoItem sampleProps).2.1.createVideoItem sampleProps).2.1.items.length =
        (initialEngine.createVideoItem sampleProps).2.1.items.length) :=
  ⟨by decide,
    duplicate_id_creation_fails_without_mutation
      (initialEngine.createVideoItem sampleProps).2.1 sampleProps (by decide)⟩

/-- `VideoEngine.setVolume` (lines 210–223): clamp, return early when the
stored global volume already equals the clamped value, otherwise store it and
emit `VOLUME_CHANGED` with the clamped value. -/
def EngineState.setVolume (s : EngineState) (v : ℚ) : EngineState × List EngineEvent :=
  let c := clampVolume v
  if s.globalVolume = c then (s, [])
  else ({ s with globalVolume := c }, [EngineEvent.volumeChanged c])

/-- C5: for every input `v`, both `setVolume` implementations store exactly
`clamp(v, 0, 1)` — which is within `[0, 1]` and is `v` itself when `v`
already lies there — and every `VOLUME_CHANGED` payload either call emits is
the clamped value, never the raw input. -/
theorem setVolume_stores_and_emits_clamped (s : EngineState) (it : VideoItemModel) (v : ℚ) :
    (s.setVolume v).1.globalVolume = clampVolume v ∧
    (∀ ev ∈ (s.setVolume v).2, ev = EngineEvent.volumeChanged (clampVolume v)) ∧
    (it.setVolume v).1.config.volume = clampVolume v ∧
    (it.setVolume v).2 = [ItemEvent.volumeChanged (clampVolume v)] ∧
    0 ≤ clampVolume v ∧ clampVolume v ≤ 1 ∧
    (0 ≤ v → v ≤ 1 → clampVolume v = v) := by
  refine ⟨?_, ?_, ?_, ?_, ?_, ?_, ?_⟩
  · by_cases h : s.globalVolume = clampVolume v
    · simp [EngineState.setVolume, h]
    · simp [EngineState.setVolume, h]
  · intro ev hev
    by_cases h : s.globalVolume = clampVolume v
    · simp [EngineState.setVolume, h] at hev
    · simp [EngineState.setVolume, h] at hev
      simp [hev]
  · by_cases h : it.playerManager <;> simp [VideoItemModel.setVolume, h]
  · by_cases h : it.playerManager <;> simp [VideoItemModel.setVolume, h]
  · simp [clampVolume, le_max_left]
  · simp [clampVolume]
  · intro h0 h1
    simp [clampVolume, min_eq_right h1, max_eq_right h0]

/-- Closed instance of `setVolume_stores_and_emits_clamped` at `v = 1/2`,
with the conditional conjunct's bounds discharged at that in-range value. -/
theorem setVolume_stores_and_emits_clamped_witness :
    ((initialEngine.setVolume (1/2)).1.globalVolume = clampVolume (1/2) ∧
      (∀ ev ∈ (initialEngine.setVolume (1/2)).2,
        ev = EngineEvent.volumeChanged (clampVolume (1/2))) ∧
      (sampleItem.setVolume (1/2)).1.config.volume = clampVolume (1/2) ∧
      (sampleItem.setVolume (1/2)).2 = [ItemEvent.volumeChanged (clampVolume (1/2))] ∧
      0 ≤ clampVolume (1/2) ∧ clampVolume (1/2) ≤ 1 ∧
      (0 ≤ (1/2 : ℚ) → (1/2 : ℚ) ≤ 1 → clampVolume (1/2) = 1/2)) ∧
    (0 ≤ (1/2 : ℚ)) ∧ ((1/2 : ℚ) ≤ 1) ∧ clampVolume (1/2) = 1/2 :=
  have main := setVolume_stores_and_emits_clamped initialEngine sampleItem (1/2)
  ⟨main, by norm_num, by norm_num, main.2.2.2.2.2.2 (by norm_num) (by norm_num)⟩

/-! ## C7 — external-script load deduplication (`VideoEngine.ensureExternalScript`)

`ensureExternalScript` (lines 266–290) is async; it is split at its `await`:
the synchronous prefix decides whether to resolve from cache, join the
pending promise, or start a fresh `loadScript` (recording the invocation);
the continuation that runs when the load settles is `settleScriptSuccess` /
`settleScriptFailure`. -/

/-- The pending promise for a script name, if one is in flight
(`scriptPromises.get(name)`). -/
def EngineState.findScriptPromise (s : EngineState) (name : ScriptName) : Option Nat :=
  (s.scriptPromises.find? (fun p => p.1 = name)).map (fun p => p.2)

/-- What a caller of `ensureExternalScript(name)` receives. -/
inductive EnsureOutcome
  | resolvedImmediately
  | joinedPending (promiseId : Nat)
  | startedLoad (promiseId : Nat)
  deriving DecidableEq, Repr

/-- Synchronous prefix of `VideoEngine.ensureExternalScript`: cached names
resolve at once; an in-flight name returns the existing promise; otherwise
`loadScript(name)` is invoked (recorded in `loaderCalls`) and its fresh
promise is stored in `scriptPromises`. -/
def EngineState.ensureExternalScript (s : EngineState) (name : ScriptName) :
    EnsureOutcome × EngineState :=
  if name ∈ s.loadedScripts then (EnsureOutcome.resolvedImmediately, s)
  else
    match s.findScriptPromise name with
    | some pid => (EnsureOutcome.joinedPending pid, s)
    | none =>
      let pid := s.nextPromiseId
      (EnsureOutcome.startedLoad pid,
        { s with
            scriptPromises := s.scriptPromises ++ [(name, pid)]
            nextPromiseId := pid + 1
            loaderCalls := s.loaderCalls ++ [name] })

/-- Continuation of `ensureExternalScript` when the awaited load fulfills:
add the name to `loadedScripts` (a `Set`) and delete the pending promise. -/
def EngineState.settleScriptSuccess (s : EngineState) (name : ScriptName) : EngineState :=
  { s with
      loadedScripts :=
        if name ∈ s.loadedScripts then s.loadedScripts else s.loadedScripts ++ [name]
      scriptPromises := s.scriptPromises.filter (fun p => p.1 ≠ name) }

/-- Continuation of `ensureExternalScript` when the awaited load rejects:
delete the pending promise and rethrow. -/
def EngineState.settleScriptFailure (s : EngineState) (name : ScriptName) : EngineState :=
  { s with scriptPromises := s.scriptPromises.filter (fun p => p.1 ≠ name) }

theorem findScriptPromise_append_self (l : List (ScriptName × Nat)) (name : ScriptName)
    (pid : Nat) (h : (l.find? (fun p => p.1 = name)).map (fun p => p.2) = none) :
    ((l ++ [(name, pid)]).find? (fun p => p.1 = name)).map (fun p => p.2) = some pid := by
  induction l with
  | nil => simp [List.find?]
  | cons a tl ih =>
    by_cases ha : a.1 = name
    · simp [List.find?, ha] at h
    · simp only [List.find?, List.cons_append] at h ⊢
      have ha' : ¬ (decide (a.1 = name) = true) := by simp [ha]
      simp only [Bool.not_eq_true] at ha'
      rw [ha'] at h ⊢
      exact ih h

theorem findScriptPromise_filter_self (l : List (ScriptName × Nat)) (name : ScriptName) :
    ((l.filter (fun p => p.1 ≠ name)).find? (fun p => p.1 = name)).map (fun p => p.2) =
      none := by
  induction l with
  | nil => simp
  | cons a tl ih =>
    by_cases ha : a.1 = name
    · simp [List.filter_cons, ha, ih]
    · have hkeep : (decide (a.1 ≠ name)) = true := by simp [ha]
      have hskip : (decide (a.1 = name)) = false := by simp [ha]
      simp only [List.filter_cons, hkeep, if_pos trivial, List.find?]
      rw [hskip]
      exact ih

/-- C7: `ensureExternalScript` deduplicates loads per script name — while a
load started by one caller is in flight, a second caller receives the very
same pending promise without the loader running again; after the load
fulfills, the name is cached and every later call resolves immediately with
no state change and no loader invocation; after the load rejects, the pending
entry is gone, so a later call starts a fresh load. -/
theorem ensureExternalScript_deduplicates (s : EngineState) (name : ScriptName) (pid : Nat)
    (hstart : (s.ensureExternalScript name).1 = EnsureOutcome.startedLoad pid) :
    ((s.ensureExternalScript name).2.ensureExternalScript name =
        (EnsureOutcome.joinedPending pid, (s.ensureExternalScript name).2)) ∧
    (s.ensureExternalScript name).2.loaderCalls.count name = s.loaderCalls.count name + 1 ∧
    (((s.ensureExternalScript name).2.settleScriptSuccess name).ensureExternalScript name =
        (EnsureOutcome.resolvedImmediately,
          (s.ensureExternalScript name).2.settleScriptSuccess name)) ∧
    ((s.ensureExternalScript name).2.settleScriptSuccess name).loaderCalls =
      (s.ensureExternalScript name).2.loaderCalls ∧
    (((s.ensureExternalScript name).2.settleScriptFailure name).ensureExternalScript name).1 =
      EnsureOutcome.startedLoad ((s.ensureExternalScript name).2.settleScriptFailure name).nextPromiseId := by
  have hmem : name ∉ s.loadedScripts := by
    intro hmem
    simp [EngineState.ensureExternalScript, hmem] at hstart
  have hpend : s.findScriptPromise name = none := by
    cases hp : s.findScriptPromise name with
    | none => rfl
    | some q => simp [EngineState.ensureExternalScript, hmem, hp] at hstart
  have hpid : pid = s.nextPromiseId := by
    simp [EngineState.ensureExternalScript, hmem, hpend] at hstart
    exact hstart.symm
  subst hpid
  have hs2 : (s.ensureExternalScript name).2 =
      { s with
          scriptPromises := s.scriptPromises ++ [(name, s.nextPromiseId)]
          nextPromiseId := s.nextPromiseId + 1
          loaderCalls := s.loaderCalls ++ [name] } := by
    simp [EngineState.ensureExternalScript, hmem, hpend]
  rw [hs2]
  have hfind2 : s.scriptPromises.find? (fun p => p.1 = name) = none := by
    have hp := hpend
    unfold EngineState.findScriptPromise at hp
    exact Option.map_eq_none'.mp hp
  have hfalse : ∀ (l : List (ScriptName × Nat)), l.find? (fun _ => false) = none := by
    intro l
    induction l with
    | nil => rfl
    | cons a tl ih => simp [List.find?, ih]
  refine ⟨?_, ?_, ?_, ?_, ?_⟩
  · simp [EngineState.ensureExternalScript, EngineState.findScriptPromise, hmem, hfind2]
  · simp
  · simp [EngineState.settleScriptSuccess, EngineState.ensureExternalScript, hmem]
  · simp [EngineState.settleScriptSuccess]
  · simp [EngineState.settleScriptFailure, EngineState.ensureExternalScript,
      EngineState.findScriptPromise, hmem, hfalse]

/-- Closed instance of `ensureExternalScript_deduplicates` starting from the
fresh engine and the `ima` script. -/
theorem ensureExternalScript_deduplicates_witness :
    ((initialEngine.ensureExternalScript ScriptName.ima).1 =
        EnsureOutcome.startedLoad 0) ∧
    ((initialEngine.ensureExternalScript ScriptName.ima).2.ensureExternalScript
          ScriptName.ima =
        (EnsureOutcome.joinedPending 0,
          (initialEngine.ensureExternalScript ScriptName.ima).2) ∧
      (initialEngine.ensureExternalScript ScriptName.ima).2.loaderCalls.count
          ScriptName.ima = initialEngine.loaderCalls.count ScriptName.ima + 1 ∧
      (((initialEngine.ensureExternalScript ScriptName.ima).2.settleScriptSuccess
            ScriptName.ima).ensureExternalScript ScriptName.ima =
        (EnsureOutcome.resolvedImmediately,
          (initialEngine.ensureExternalScript ScriptName.ima).2.settleScriptSuccess
            ScriptName.ima)) ∧
      ((initialEngine.ensureExternalScript ScriptName.ima).2.settleScriptSuccess
            ScriptName.ima).loaderCalls =
        (initialEngine.ensureExternalScript ScriptName.ima).2.loaderCalls ∧
      (((initialEngine.ensureExternalScript ScriptName.ima).2.settleScriptFailure
            ScriptName.ima).ensureExternalScript ScriptName.ima).1 =
        EnsureOutcome.startedLoad
          ((initialEngine.ensureExternalScript ScriptName.ima).2.settleScriptFailure
            ScriptName.ima).nextPromiseId) :=
  ⟨by decide,
    ensureExternalScript_deduplicates initialEngine ScriptName.ima 0 (by decide)⟩

/-! ## C8 — disposal of a Session through the Registry

`VideoEngine.disposeVideoItem` (lines 144–165): look the item up (no-op when
absent), dispose the item instance, delete it from the map, clear the active
reference when it pointed at this item (emitting
`ACTIVE_VIDEO_ITEM_CHANGED`), then emit `VIDEO_ITEM_DISPOSED`. The active
reference is compared by identity in the source; ids are unique in the map,
so id equality models it. The disposed instance survives at the caller, so
the model returns it alongside the new engine state. -/

/-- `VideoEngine.disposeVideoItem`. -/
def EngineState.disposeVideoItem (s : EngineState) (id : String) :
    EngineState × Option VideoItemModel × List EngineEvent :=
  match s.findItem id with
  | none => (s, none, [])
  | some item =>
    let disposed := item.dispose
    let s1 := { s with items := s.items.filter (fun p => p.1 ≠ id) }
    let act := if s1.activeItem = some id then s1.setActiveItem none else (s1, [])
    (act.1, some disposed, act.2 ++ [EngineEvent.videoItemDisposed id])

theorem assoc_find_filter_self {β : Type} (l : List (String × β)) (k : String) :
    (l.filter (fun p => p.1 ≠ k)).find? (fun p => p.1 = k) = none := by
  induction l with
  | nil => simp
  | cons a tl ih =>
    by_cases ha : a.1 = k
    · simp [List.filter_cons, ha, ih]
    · have hkeep : (decide (a.1 ≠ k)) = true := by simp [ha]
      have hskip : (decide (a.1 = k)) = false := by simp [ha]
      simp only [List.filter_cons, hkeep, if_pos trivial, List.find?]
      rw [hskip]
      exact ih

theorem assoc_find_negand {β : Type} (l : List (String × β)) (k k2 : String)
    (hne : k2 ≠ k) :
    List.find? (fun a => !decide (a.1 = k) && decide (a.1 = k2)) l =
      List.find? (fun p => decide (p.1 = k2)) l := by
  induction l with
  | nil => rfl
  | cons a tl ih =>
    by_cases ha2 : a.1 = k2
    · have haid : (decide (a.1 = k)) = false := by
        simp only [decide_eq_false_iff_not]
        intro hcontra
        exact hne (ha2 ▸ hcontra ▸ rfl)
      simp [List.find?, ha2, haid, hne]
    · simp [List.find?, ha2, ih]

/-- C8 (counterexample): after `dispose()`, `setVolume` is neither a no-op
nor a rejection — it still mutates the resolved config's stored volume (the
claim that *every* subsequent public call on a disposed Session is a no-op
or a rejection is false on the code). -/
theorem disposed_setVolume_still_mutates :
    ((readyItem.dispose.setVolume (1/2)).1.config.volume ≠
        readyItem.dispose.config.volume) ∧
    (readyItem.dispose.setVolume (1/2)).1 ≠ readyItem.dispose := by
  have hvol : (readyItem.dispose.setVolume (1/2)).1.config.volume = clampVolume (1/2) := rfl
  have hold : readyItem.dispose.config.volume = 1 := rfl
  have hhalf : clampVolume (1/2) = (1/2 : ℚ) := by
    rw [clampVolume, min_eq_right (by norm_num : (1/2 : ℚ) ≤ 1)]
    exact max_eq_right (by norm_num)
  have hne : (readyItem.dispose.setVolume (1/2)).1.config.volume ≠
      readyItem.dispose.config.volume := by
    rw [hvol, hold, hhalf]
    norm_num
  exact ⟨hne, fun hcontra =>
    hne (congrArg (fun it : VideoItemModel => it.config.volume) hcontra)⟩

/-- C8 (amended): disposing through the Registry removes the Session from the
map (leaving every other entry in place), clears the active reference when it
pointed at it, and the disposed instance holds no Player Delegate binding and
no Feature Unit references, sits in `idle` with all subscribers cleared;
subsequent *playback* calls are rejections (`play`) or no-ops
(`pause`/`seekTo`) — configuration setters such as `setVolume` still mutate
the resolved config (see the counterexample). -/
theorem dispose_removes_and_neutralizes (s : EngineState) (id : String)
    (item : VideoItemModel) (hfound : s.findItem id = some item) :
    (s.disposeVideoItem id).2.1 = some item.dispose ∧
    (s.disposeVideoItem id).1.findItem id = none ∧
    (∀ id2, id2 ≠ id → (s.disposeVideoItem id).1.findItem id2 = s.findItem id2) ∧
    (s.activeItem = some id → (s.disposeVideoItem id).1.activeItem = none) ∧
    item.dispose.playerManager = false ∧
    item.dispose.managers = noManagers ∧
    item.dispose.state = VideoItemState.idle ∧
    item.dispose.handlers = [] ∧
    (∀ beh, (item.dispose.play beh).result ≠ PlayResult.ok ∧
      (item.dispose.play beh).delegatePlayCalls = 0 ∧
      (item.dispose.play beh).item = item.dispose) ∧
    item.dispose.pause = (item.dispose, []) ∧
    (∀ t, item.dispose.seekTo t = (item.dispose, [])) := by
  have hdisp :
      s.disposeVideoItem id =
        (let s1 : EngineState := { s with items := s.items.filter (fun p => p.1 ≠ id) }
         let act := if s1.activeItem = some id then s1.setActiveItem none else (s1, [])
         (act.1, some item.dispose, act.2 ++ [EngineEvent.videoItemDisposed id])) := by
    unfold EngineState.disposeVideoItem
    rw [hfound]
  refine ⟨?_, ?_, ?_, ?_, rfl, rfl, rfl, rfl, ?_, ?_, ?_⟩
  · rw [hdisp]
  · rw [hdisp]
    by_cases hact : s.activeItem = some id <;>
      simp [hact, EngineState.setActiveItem, EngineState.findItem,
        assoc_find_filter_self]
  · intro id2 hne
    rw [hdisp]
    by_cases hact : s.activeItem = some id <;>
      simp [hact, EngineState.setActiveItem, EngineState.findItem,
        assoc_find_negand _ _ _ hne]
  · intro hact
    rw [hdisp]
    simp [hact, EngineState.setActiveItem]
  · intro beh
    refine ⟨?_, rfl, rfl⟩
    intro hcontra
    simp [VideoItemModel.play, VideoItemModel.dispose] at hcontra
  · rfl
  · intro t
    rfl

/-- The engine after successfully creating `sampleProps` on a fresh engine:
it holds one item under `"item-a"`, which is also the active item. -/
def engineWithItem : EngineState := (initialEngine.createVideoItem sampleProps).2.1

/-- Closed instance of `dispose_removes_and_neutralizes` at the engine
holding (and active on) `"item-a"`. -/
theorem dispose_removes_and_neutralizes_witness :
    (engineWithItem.findItem "item-a" = some sampleItem) ∧
    ((engineWithItem.disposeVideoItem "item-a").2.1 = some sampleItem.dispose ∧
      (engineWithItem.disposeVideoItem "item-a").1.findItem "item-a" = none ∧
      (∀ id2, id2 ≠ "item-a" →
        (engineWithItem.disposeVideoItem "item-a").1.findItem id2 =
          engineWithItem.findItem id2) ∧
      (engineWithItem.activeItem = some "item-a" →
        (engineWithItem.disposeVideoItem "item-a").1.activeItem = none) ∧
      sampleItem.dispose.playerManager = false ∧
      sampleItem.dispose.managers = noManagers ∧
      sampleItem.dispose.state = VideoItemState.idle ∧
      sampleItem.dispose.handlers = [] ∧
      (∀ beh, (sampleItem.dispose.play beh).result ≠ PlayResult.ok ∧
        (sampleItem.dispose.play beh).delegatePlayCalls = 0 ∧
        (sampleItem.dispose.play beh).item = sampleItem.dispose) ∧
      sampleItem.dispose.pause = (sampleItem.dispose, []) ∧
      (∀ t, sampleItem.dispose.seekTo t = (sampleItem.dispose, []))) :=
  ⟨by decide,
    dispose_removes_and_neutralizes engineWithItem "item-a" sampleItem (by decide)⟩

/-! ## C9 — re-entry of `init` across its suspension point

`VideoItem.init` (lines 86–132) is async. Its synchronous prefix
(`initPhaseA`) runs the guard `if (this.initialized) return;`, constructs a
`VideoPlayerManager`, registers listeners and sets state `loading`, then
suspends at `await this.playerManager.init(container, source)`. Its
continuation (`initPhaseB`, success path) sets state `ready` and only then
sets `this.initialized = true`. On the single-threaded event loop, a second
`init` call on the same item can start while the first is suspended; the
interleaving below evaluates exactly that schedule. -/

/-- The item fields `init` reads and writes, with a counter of
`new VideoPlayerManager(...)` constructions. -/
structure InitGlobal where
  initialized : Bool
  state : VideoItemState
  playerManager : Bool
  playerManagerConstructions : Nat
  deriving DecidableEq, Repr

/-- A freshly constructed item, as far as `init` is concerned. -/
def initGlobal0 : InitGlobal :=
  { initialized := false
    state := VideoItemState.idle
    playerManager := false
    playerManagerConstructions := 0 }

/-- Synchronous prefix of `VideoItem.init` up to the `await`: the
`initialized` guard, `VideoPlayerManager` construction, listener setup and
`setState(LOADING)` (a no-op when the state is already `loading`). The
returned flag says whether the call proceeded past the guard. -/
def initPhaseA (g : InitGlobal) : InitGlobal × Bool :=
  if g.initialized then (g, false)
  else
    ({ g with
        playerManager := true
        playerManagerConstructions := g.playerManagerConstructions + 1
        state := if g.state = VideoItemState.loading then g.state else VideoItemState.loading },
      true)

/-- Continuation of `VideoItem.init` when the awaited player load fulfills:
`setState(READY)` then `this.initialized = true`. -/
def initPhaseB (g : InitGlobal) : InitGlobal :=
  let g1 := if g.state = VideoItemState.ready then g else { g with state := VideoItemState.ready }
  { g1 with initialized := true }

/-- C9 (the code, evaluated at the failing interleaving): when a second
`init` starts while the first is suspended at its `await`, the guard does not
stop it — both calls proceed and two `VideoPlayerManager`s are constructed;
the guard only blocks a call that starts after a previous `init` completed. -/
theorem second_init_passes_guard_while_first_suspended :
    (initPhaseA initGlobal0).2 = true ∧
    (initPhaseA (initPhaseA initGlobal0).1).2 = true ∧
    (initPhaseA (initPhaseA initGlobal0).1).1.playerManagerConstructions = 2 ∧
    (initPhaseB (initPhaseB (initPhaseA (initPhaseA initGlobal0).1).1)).playerManagerConstructions
      = 2 ∧
    (initPhaseA (initPhaseB (initPhaseA initGlobal0).1)).2 = false := by
  decide
